import Mathlib

/-!
# Verification of the polymarket-copy-trader core

A shallow embedding, in Lean 4, of the accounting / market-making core of the
`polymarket-copy-trader` repository, together with theorems settling the
specification claims about it.

Conventions of the embedding:

* Python `float` values are modelled as exact rationals (`ℚ`); the code's
  explicit epsilon constants (`PRICE_EPS = 1e-9`, integrity `eps = 1e-6`)
  are kept as the rationals `1/10^9` and `1/10^6`.
* Python `None` becomes `Option.none`; Python truthiness of `x or y` on
  numbers (where `0.0` is falsy) and strings (where `""` is falsy) is
  modelled by the helpers `pyOrQ` / `pyOrStr`.
* Functions that can raise `ValueError` / `RuntimeError` / `AssertionError`
  return `Except`.
* SQLite tables become Lean lists of rows; `UPDATE ... WHERE id = ?` becomes
  a `List.map` guarded on the id, `INSERT` an append, and the AUTOINCREMENT
  primary key an explicit `next_trade_id` counter in the database state.
* `datetime` values that are only stored (never computed with) are kept as
  opaque strings passed in by the caller (`now`); timestamps that enter
  arithmetic (diagnostics latency) are rationals measured in seconds.
-/

/-- Python `a or b` for float-valued `a` (None and 0.0 are falsy). -/
def pyOrQ (a : Option ℚ) (d : ℚ) : ℚ :=
  match a with
  | some x => if x = 0 then d else x
  | none => d

/-- Python `s or d` for strings (the empty string is falsy). -/
def pyOrStr (s d : String) : String :=
  if s = "" then d else s

/-- Python `str.lower()` (ASCII), written through the character list so that it
reduces definitionally. -/
def pyLower (s : String) : String := ⟨s.data.map Char.toLower⟩

/-- Python `str.upper()` (ASCII), written through the character list so that it
reduces definitionally. -/
def pyUpper (s : String) : String := ⟨s.data.map Char.toUpper⟩

/-- SQL `COALESCE(x, 0)`. -/
def coalesceQ (a : Option ℚ) : ℚ := a.getD 0

/-- `PRICE_EPS = 1e-9` from `market_making_strategy.py` / `execution_diagnostics.py`. -/
def PRICE_EPS : ℚ := 1 / 1000000000

/-- Default integrity epsilon `1e-6` used throughout `pnl.py` / `database.py`. -/
def INTEGRITY_EPS : ℚ := 1 / 1000000

/-! ## `pnl.py` — pricing/accounting primitives -/

/-- `pnl.compute_shares`: shares from USD size and entry price (0 if `entry_price <= 0`). -/
def compute_shares (size entry_price : ℚ) : ℚ :=
  if entry_price ≤ 0 then 0 else size / entry_price

/-- `pnl.assert_price_probability`: prices must lie in `[0, 1]` when provided. -/
def assert_price_probability (price : Option ℚ) (field_name : String) : Except String Unit :=
  match price with
  | none => .ok ()
  | some p =>
    if p < 0 ∨ p > 1 then .error (field_name ++ " must be in [0, 1]") else .ok ()

/-- `pnl.assert_shares_consistent`: guard against mixing shares with USD size. -/
def assert_shares_consistent (shares entry_price cost_basis_usd eps : ℚ) : Except String Unit :=
  if shares ≤ 0 then .error "shares must be positive"
  else if |shares * entry_price - cost_basis_usd| > eps then
    .error "shares/cost_basis mismatch"
  else .ok ()

/-- `pnl.compute_unrealized_pnl` (missing current price yields 0). -/
def compute_unrealized_pnl (shares entry_price : ℚ) (current_price : Option ℚ) : ℚ :=
  match current_price with
  | none => 0
  | some c => shares * (c - entry_price)

/-- `pnl.compute_realized_pnl` (missing exit price yields 0). -/
def compute_realized_pnl (shares entry_price : ℚ) (exit_price : Option ℚ) : ℚ :=
  match exit_price with
  | none => 0
  | some e => shares * (e - entry_price)

/-- `pnl.compute_proceeds` (missing exit price yields 0). -/
def compute_proceeds (shares : ℚ) (exit_price : Option ℚ) : ℚ :=
  match exit_price with
  | none => 0
  | some e => shares * e

/-- `pnl.compute_unrealized_pnl_from_size`. -/
def compute_unrealized_pnl_from_size (size entry_price current_price : ℚ) : ℚ :=
  compute_unrealized_pnl (compute_shares size entry_price) entry_price (some current_price)

/-- `pnl.compute_realized_pnl_from_size`. -/
def compute_realized_pnl_from_size (size entry_price exit_price : ℚ) : ℚ :=
  compute_realized_pnl (compute_shares size entry_price) entry_price (some exit_price)

/-- `pnl.compute_proceeds_from_size`. -/
def compute_proceeds_from_size (size entry_price exit_price : ℚ) : ℚ :=
  compute_proceeds (compute_shares size entry_price) (some exit_price)

/-! ## `market_making_strategy.py` — snapshot, inventory, quote decision -/

/-- `market_making_strategy.MarketSnapshot`. -/
structure MarketSnapshot where
  market_id : String
  best_bid : Option ℚ
  best_ask : Option ℚ
  mid_price : Option ℚ
  spread_pct : Option ℚ
  depth_bid_1 : Option ℚ
  depth_ask_1 : Option ℚ
  last_trade_price : Option ℚ
  deriving DecidableEq, Repr

/-- `market_making_strategy.InventoryState`. -/
structure InventoryState where
  net_usd : ℚ
  gross_usd : ℚ
  oldest_hold_sec : Option ℚ
  deriving DecidableEq, Repr

/-- `market_making_strategy.QuoteDecision`. -/
structure QuoteDecision where
  bid_price : Option ℚ
  ask_price : Option ℚ
  place_bid : Bool
  place_ask : Bool
  pause_reason : Option String
  deriving DecidableEq, Repr

/-- `market_making_strategy.compute_mid`. -/
def compute_mid (best_bid best_ask mid_price : Option ℚ) : Option ℚ :=
  match best_bid, best_ask with
  | some b, some a => some ((b + a) / 2)
  | _, _ => mid_price

/-- `market_making_strategy.compute_spread_pct` (`mid in (None, 0)` yields None). -/
def compute_spread_pct (best_bid best_ask mid : Option ℚ) : Option ℚ :=
  match best_bid, best_ask, mid with
  | some b, some a, some m => if m = 0 then none else some ((a - b) / m)
  | _, _, _ => none

/-- `market_making_strategy.quote_prices`: symmetric quotes around `mid` with
inventory skew; `k_ticks = 0` means a half-tick base width. -/
def quote_prices (mid tick_size : ℚ) (k_ticks : ℤ) (skew_ticks skew_direction : ℚ) :
    ℚ × ℚ :=
  let base : ℚ := if (k_ticks : ℚ) = 0 then tick_size / 2 else (k_ticks : ℚ) * tick_size
  let skew : ℚ := skew_ticks * tick_size * skew_direction
  (mid - base - skew, mid + base - skew)

/-- The sign computation of `decide_quotes` (lines 109–111): `skew_direction` is
`+1` for a long net inventory, `-1` for a short one, `0` when flat. -/
def sign_of_net (net : ℚ) : ℚ :=
  if net > 0 then 1 else if net < 0 then -1 else 0

/-- The exposure-cap block of `decide_quotes` (lines 118–135): starting from
`place_bid = place_ask = True`, disable the side that would increase exposure at
the per-market cap, and both sides at the total cap when flat. -/
def exposure_flags (net gross max_per_market_exposure_usd max_total_exposure_usd : ℚ) :
    Bool × Bool :=
  let flags1 : Bool × Bool :=
    if |net| ≥ max_per_market_exposure_usd - PRICE_EPS then
      (if net > 0 then (false, true)
       else if net < 0 then (true, false)
       else (true, true))
    else (true, true)
  if gross ≥ max_total_exposure_usd - PRICE_EPS then
    (if net > 0 then (false, flags1.2)
     else if net < 0 then (flags1.1, false)
     else (false, false))
  else flags1

/-- `market_making_strategy.decide_quotes`: snapshot + inventory to quote decision. -/
def decide_quotes (snapshot : MarketSnapshot) (inventory : InventoryState)
    (tick_size : ℚ) (k_ticks : ℤ) (max_spread_pct : Option ℚ)
    (max_per_market_exposure_usd max_total_exposure_usd skew_ticks : ℚ) : QuoteDecision :=
  match compute_mid snapshot.best_bid snapshot.best_ask snapshot.mid_price with
  | none => ⟨none, none, false, false, some "missing_mid"⟩
  | some mid =>
    let spread_pct := compute_spread_pct snapshot.best_bid snapshot.best_ask (some mid)
    let too_wide : Bool :=
      match max_spread_pct, spread_pct with
      | some mx, some sp => decide (sp > mx)
      | _, _ => false
    if too_wide then ⟨none, none, false, false, some "spread_too_wide"⟩
    else
      let net := inventory.net_usd
      let gross := inventory.gross_usd
      if max_per_market_exposure_usd ≤ 0 ∨ max_total_exposure_usd ≤ 0 then
        ⟨none, none, false, false, some "invalid_exposure_caps"⟩
      else
        let skew_direction : ℚ :=
          if max_per_market_exposure_usd > 0 then sign_of_net net else 0
        let ba := quote_prices mid tick_size k_ticks skew_ticks skew_direction
        let bid := ba.1
        let ask := ba.2
        if bid ≤ 0 ∨ 1 ≤ ask ∨ ask ≤ bid then
          ⟨none, none, false, false, some "invalid_quote_bounds"⟩
        else
          let flags := exposure_flags net gross
            max_per_market_exposure_usd max_total_exposure_usd
          ⟨some bid, some ask, flags.1, flags.2, none⟩

/-- Modelled from the spec's wording for comparison with `quote_prices`:
`half_width = max(k_ticks, 0.5) × tick_size`, `skew = skew_ticks × tick_size ×
skew_direction`, `bid = mid − half_width − skew`, `ask = mid + half_width − skew`. -/
def quote_prices_spec_formula (mid tick_size : ℚ) (k_ticks : ℤ)
    (skew_ticks skew_direction : ℚ) : ℚ × ℚ :=
  let half_width : ℚ := max (k_ticks : ℚ) (1 / 2) * tick_size
  let skew : ℚ := skew_ticks * tick_size * skew_direction
  (mid - half_width - skew, mid + half_width - skew)

/-- C2: for cost > 0, entry in (0,1], exit in [0,1], proceeds minus cost equals
realized P&L (the accounting identity of `compute_proceeds_from_size` and
`compute_realized_pnl_from_size`). -/
theorem proceeds_minus_cost_eq_realized (cost entry exit : ℚ)
    (hcost : 0 < cost) (hentry0 : 0 < entry) (hentry1 : entry ≤ 1)
    (hexit0 : 0 ≤ exit) (hexit1 : exit ≤ 1) :
    compute_proceeds_from_size cost entry exit - cost
      = compute_realized_pnl_from_size cost entry exit := by
  unfold compute_proceeds_from_size compute_realized_pnl_from_size compute_shares
    compute_proceeds compute_realized_pnl
  rw [if_neg (not_le.mpr hentry0)]
  field_simp
  ring

/-- Witness for C2 at the spec's own example: cost 100, entry 0.02, exit 0.06. -/
theorem proceeds_minus_cost_eq_realized_witness :
    ((0 : ℚ) < 100 ∧ (0 : ℚ) < 1 / 50 ∧ (1 / 50 : ℚ) ≤ 1 ∧
      (0 : ℚ) ≤ 3 / 50 ∧ (3 / 50 : ℚ) ≤ 1) ∧
    compute_proceeds_from_size 100 (1 / 50) (3 / 50) - 100
      = compute_realized_pnl_from_size 100 (1 / 50) (3 / 50) :=
  ⟨by norm_num,
   proceeds_minus_cost_eq_realized 100 (1 / 50) (3 / 50) (by norm_num) (by norm_num)
     (by norm_num) (by norm_num) (by norm_num)⟩

/-- C1: a decision returned by `decide_quotes` either carries no prices at all
(a no-quote decision, both prices `None`) or carries a bid/ask pair with
`0 < bid`, `bid < ask` and `ask < 1`; a decision with bid ≤ 0, ask ≥ 1 or
bid ≥ ask is never returned. -/
theorem decide_quotes_bounds (snapshot : MarketSnapshot) (inventory : InventoryState)
    (tick_size : ℚ) (k_ticks : ℤ) (max_spread_pct : Option ℚ)
    (max_per_market_exposure_usd max_total_exposure_usd skew_ticks : ℚ) :
    ((decide_quotes snapshot inventory tick_size k_ticks max_spread_pct
        max_per_market_exposure_usd max_total_exposure_usd skew_ticks).bid_price = none ∧
     (decide_quotes snapshot inventory tick_size k_ticks max_spread_pct
        max_per_market_exposure_usd max_total_exposure_usd skew_ticks).ask_price = none) ∨
    (∃ b a,
      (decide_quotes snapshot inventory tick_size k_ticks max_spread_pct
        max_per_market_exposure_usd max_total_exposure_usd skew_ticks).bid_price = some b ∧
      (decide_quotes snapshot inventory tick_size k_ticks max_spread_pct
        max_per_market_exposure_usd max_total_exposure_usd skew_ticks).ask_price = some a ∧
      0 < b ∧ b < a ∧ a < 1) := by
  have aux : ∀ d : QuoteDecision,
      decide_quotes snapshot inventory tick_size k_ticks max_spread_pct
        max_per_market_exposure_usd max_total_exposure_usd skew_ticks = d →
      (d.bid_price = none ∧ d.ask_price = none) ∨
        (∃ b a, d.bid_price = some b ∧ d.ask_price = some a ∧ 0 < b ∧ b < a ∧ a < 1) := by
    intro d hd
    unfold decide_quotes at hd
    split at hd
    · exact hd ▸ Or.inl ⟨rfl, rfl⟩
    · simp only at hd
      split_ifs at hd <;>
        first
          | exact hd ▸ Or.inl ⟨rfl, rfl⟩
          | (push_neg at *
             exact hd ▸ Or.inr ⟨_, _, rfl, rfl, by tauto, by tauto, by tauto⟩)
  exact aux _ rfl

/-- C6 counterexample: at `k_ticks = -1` the code's half width is
`k_ticks × tick_size` (negative), not `max(k_ticks, 0.5) × tick_size` as the
claim's formula states. -/
theorem quote_prices_spec_formula_counterexample :
    quote_prices (1 / 2) (1 / 100) (-1) 0 (sign_of_net 0)
      ≠ quote_prices_spec_formula (1 / 2) (1 / 100) (-1) 0 (sign_of_net 0) := by
  have hc : (((-1 : ℤ) : ℚ)) = -1 := by push_cast; ring
  have hmax : max (((-1 : ℤ) : ℚ)) (1 / 2) = 1 / 2 := by
    rw [hc]; exact max_eq_right (by norm_num)
  simp only [quote_prices, quote_prices_spec_formula, sign_of_net, hc, hmax]
  norm_num [Prod.ext_iff]

/-- C6 (amended to nonnegative `k_ticks`): for `k_ticks ≥ 0` the quote engine's
prices are exactly `bid = mid − half_width − skew`, `ask = mid + half_width − skew`
with `half_width = max(k_ticks, 0.5) × tick_size` and
`skew = skew_ticks × tick_size × sign(net)`. -/
theorem quote_prices_spec_formula_agrees (mid tick_size : ℚ) (k_ticks : ℤ)
    (skew_ticks net : ℚ) (hk : 0 ≤ k_ticks) :
    quote_prices mid tick_size k_ticks skew_ticks (sign_of_net net)
      = quote_prices_spec_formula mid tick_size k_ticks skew_ticks (sign_of_net net) := by
  unfold quote_prices quote_prices_spec_formula
  rcases eq_or_lt_of_le hk with h | h
  · subst h
    norm_num [Prod.ext_iff]
    ring
  · have h1 : (1 : ℚ) ≤ (k_ticks : ℚ) := by exact_mod_cast h
    have hne : ((k_ticks : ℚ)) ≠ 0 := by linarith
    rw [if_neg hne, max_eq_left (by linarith : (1 / 2 : ℚ) ≤ (k_ticks : ℚ))]

/-- Witness for the amended C6, at the spec's worked example
(mid 0.5, tick 0.01, k_ticks 1, no skew, flat inventory). -/
theorem quote_prices_spec_formula_agrees_witness :
    (0 : ℤ) ≤ 1 ∧
    quote_prices (1 / 2) (1 / 100) 1 0 (sign_of_net 0)
      = quote_prices_spec_formula (1 / 2) (1 / 100) 1 0 (sign_of_net 0) :=
  ⟨by decide, quote_prices_spec_formula_agrees (1 / 2) (1 / 100) 1 0 0 (by decide)⟩

/-! ## `fill_model.py` — fill-simulation models -/

/-- `fill_model.FillDecision`. The `diagnostics` dict of the Python class only
echoes (rounded copies of) the inputs and intermediates and carries no decision
content, so it is not modelled. -/
structure FillDecision where
  fill : Bool
  fill_price : Option ℚ
  reason : String
  deriving DecidableEq, Repr

/-- `fill_model.ProbabilisticFillModel`'s state: the constructor parameters plus
the state of `random.Random(seed)`, modelled as the seed together with a count of
draws consumed so far (Python's seeded Mersenne Twister is a deterministic
stream, so its state is determined by the seed and the number of calls). -/
structure ProbabilisticFillModel where
  tick_size : ℚ
  alpha : ℚ
  base_liquidity : ℚ
  p_max : ℚ
  seed : ℕ
  rng_count : ℕ
  deriving DecidableEq, Repr

/-- `ProbabilisticFillModel.__init__`: a freshly constructed model has consumed
no random draws. -/
def mkProbabilisticFillModel (tick_size alpha base_liquidity p_max : ℚ) (seed : ℕ) :
    ProbabilisticFillModel :=
  ⟨tick_size, alpha, base_liquidity, p_max, seed, 0⟩

/-- `ProbabilisticFillModel.should_fill`. The library functions it calls are
passed in explicitly as pure functions: `rand seed n` is the `n`-th value of the
`random.Random(seed)` stream, and `expQ` models `math.exp`. Python's
`snapshot.last_trade_price or snapshot.mid_price` falls through on `0.0`
(falsy), which `pyOrQ`-style matching reproduces. Returns the decision and the
model with its advanced RNG state. -/
def prob_should_fill (rand : ℕ → ℕ → ℚ) (expQ : ℚ → ℚ) (m : ProbabilisticFillModel)
    (order_side : String) (order_price : ℚ) (snapshot : MarketSnapshot) :
    FillDecision × ProbabilisticFillModel :=
  let ref_price : Option ℚ :=
    match snapshot.last_trade_price with
    | some x => if x = 0 then snapshot.mid_price else some x
    | none => snapshot.mid_price
  match ref_price with
  | none => (⟨false, none, "no_ref_price"⟩, m)
  | some ref =>
    let dist := |order_price - ref|
    let dist_ticks := if m.tick_size > 0 then dist / m.tick_size else 0
    let p_raw := m.base_liquidity * expQ (-(m.alpha * dist_ticks))
    let p := min m.p_max p_raw
    let roll := rand m.seed m.rng_count
    let m' := { m with rng_count := m.rng_count + 1 }
    if roll < p then
      let fill_price := (order_price + ref) / 2
      let fill_price := max 0 (min 1 fill_price)
      (⟨true, some fill_price, "prob_fill"⟩, m')
    else
      (⟨false, none, "prob_no_fill"⟩, m')

/-- A sequence of `should_fill` calls against one probabilistic model instance,
threading its RNG state. Each input is `(order_side, order_price, snapshot)`. -/
def run_prob_fills (rand : ℕ → ℕ → ℚ) (expQ : ℚ → ℚ) (m : ProbabilisticFillModel) :
    List (String × ℚ × MarketSnapshot) → List FillDecision
  | [] => []
  | (side, price, snap) :: rest =>
    let r := prob_should_fill rand expQ m side price snap
    r.1 :: run_prob_fills rand expQ r.2 rest

/-- C9: two probabilistic fill-model instances with the same seed and identical
parameters (and RNG position), fed the same sequence of `should_fill` inputs,
produce identical fill decisions (fill flag and fill price) at every step. -/
theorem prob_fill_model_deterministic (rand : ℕ → ℕ → ℚ) (expQ : ℚ → ℚ)
    (m₁ m₂ : ProbabilisticFillModel) (inputs : List (String × ℚ × MarketSnapshot))
    (htick : m₁.tick_size = m₂.tick_size) (halpha : m₁.alpha = m₂.alpha)
    (hliq : m₁.base_liquidity = m₂.base_liquidity) (hpmax : m₁.p_max = m₂.p_max)
    (hseed : m₁.seed = m₂.seed) (hcount : m₁.rng_count = m₂.rng_count) :
    run_prob_fills rand expQ m₁ inputs = run_prob_fills rand expQ m₂ inputs := by
  have hm : m₁ = m₂ := by
    cases m₁
    cases m₂
    simp_all
  rw [hm]

/-- Witness for C9: two freshly constructed models with seed 42 and the default
parameters agree on a concrete two-step input sequence, and that common output
is a concrete pair of decisions. -/
theorem prob_fill_model_deterministic_witness :
    (mkProbabilisticFillModel (1 / 100) (3 / 2) (1 / 10) (1 / 5) 42).seed
        = (mkProbabilisticFillModel (1 / 100) (3 / 2) (1 / 10) (1 / 5) 42).seed ∧
    run_prob_fills (fun _ _ => 1 / 2) (fun _ => 1)
        (mkProbabilisticFillModel (1 / 100) (3 / 2) (1 / 10) (1 / 5) 42)
        [("buy", 1 / 2, ⟨"m", some (49 / 100), some (51 / 100), none, none, none, none,
            some (1 / 2)⟩),
         ("sell", 6 / 10, ⟨"m", some (49 / 100), some (51 / 100), none, none, none, none,
            none⟩)]
      = run_prob_fills (fun _ _ => 1 / 2) (fun _ => 1)
        (mkProbabilisticFillModel (1 / 100) (3 / 2) (1 / 10) (1 / 5) 42)
        [("buy", 1 / 2, ⟨"m", some (49 / 100), some (51 / 100), none, none, none, none,
            some (1 / 2)⟩),
         ("sell", 6 / 10, ⟨"m", some (49 / 100), some (51 / 100), none, none, none, none,
            none⟩)] :=
  ⟨rfl,
   prob_fill_model_deterministic (fun _ _ => 1 / 2) (fun _ => 1) _ _ _
     rfl rfl rfl rfl rfl rfl⟩

/-! ## `market_making_engine.py` — inventory-aware quote building -/

/-- An open row of the `trades` table as consumed by
`MarketMakingEngine._inventory_state` (fields `market`, `side`, `size`,
`timestamp`). The timestamp is modelled by its age in seconds relative to the
evaluation instant (`none` for a missing or unparsable timestamp, which the
engine skips). -/
structure OpenPosition where
  market : String
  side : String
  size : ℚ
  age_sec : Option ℚ
  deriving DecidableEq, Repr

/-- `MarketMakingEngine._inventory_state`: net/gross USD exposure and the age of
the oldest open lot for one market. -/
def inventory_state_for (positions : List OpenPosition) (market_id : String) :
    InventoryState :=
  let step := fun (acc : ℚ × ℚ × Option ℚ) (pos : OpenPosition) =>
    if pos.market ≠ market_id then acc
    else
      let size := pos.size
      let side := pyUpper (pyOrStr pos.side "BUY")
      let net := if side = "BUY" then acc.1 + size else acc.1 - size
      let gross := acc.2.1 + |size|
      let oldest :=
        match pos.age_sec, acc.2.2 with
        | none, o => o
        | some age, none => some age
        | some age, some o => if age > o then some age else some o
      (net, gross, oldest)
  let folded := positions.foldl step (0, 0, none)
  ⟨folded.1, folded.2.1, folded.2.2⟩

/-- `MarketMakingEngine._total_gross_exposure`: summed absolute size over every
open position. -/
def total_gross_exposure (positions : List OpenPosition) : ℚ :=
  (positions.map (fun pos => |pos.size|)).sum

/-- The quoting configuration held by `MarketMakingEngine.__init__` (the fields
`build_quote` reads). -/
structure EngineConfig where
  tick_size : ℚ
  k_ticks : ℤ
  max_spread_pct : Option ℚ
  max_total_exposure_usd : ℚ
  max_per_market_exposure_usd : ℚ
  max_hold_time_sec : Option ℚ
  skew_ticks : ℚ
  deriving DecidableEq, Repr

/-- `MarketMakingEngine.build_quote`: per-market inventory (with gross exposure
replaced by the account-wide total), `decide_quotes`, the stale-inventory
hold-time rule, and the long-only rule that clears `place_ask` whenever net
inventory is not positive. `if self.max_hold_time_sec` is Python truthiness:
both `None` and `0` skip the hold-time block. -/
def build_quote (cfg : EngineConfig) (positions : List OpenPosition)
    (snapshot : MarketSnapshot) : QuoteDecision :=
  let inv0 := inventory_state_for positions snapshot.market_id
  let inventory : InventoryState :=
    ⟨inv0.net_usd, total_gross_exposure positions, inv0.oldest_hold_sec⟩
  let decision := decide_quotes snapshot inventory cfg.tick_size cfg.k_ticks
    cfg.max_spread_pct cfg.max_per_market_exposure_usd cfg.max_total_exposure_usd
    cfg.skew_ticks
  let decision :=
    match cfg.max_hold_time_sec, inventory.oldest_hold_sec with
    | some hold, some age =>
      if hold ≠ 0 ∧ age > hold then
        if inventory.net_usd > 0 then { decision with place_bid := false }
        else { decision with place_ask := false }
      else decision
    | _, _ => decision
  if inventory.net_usd ≤ 0 then { decision with place_ask := false } else decision

/-- C10: whenever a market's net USD inventory is not positive (including a
fresh market with no open position), `build_quote` returns a decision with
`place_ask = false` — the engine never rests a sell quote without a long
inventory in that market. -/
theorem build_quote_no_ask_without_long (cfg : EngineConfig)
    (positions : List OpenPosition) (snapshot : MarketSnapshot)
    (hnet : (inventory_state_for positions snapshot.market_id).net_usd ≤ 0) :
    (build_quote cfg positions snapshot).place_ask = false := by
  unfold build_quote
  simp only [if_pos hnet]

/-- Witness for C10: a fresh market (no open positions) with a plain snapshot;
the engine quotes a bid but rests no ask. -/
theorem build_quote_no_ask_without_long_witness :
    (inventory_state_for [] "mkt").net_usd ≤ 0 ∧
    (build_quote ⟨1 / 100, 1, none, 1000, 100, none, 0⟩ []
        ⟨"mkt", some (49 / 100), some (51 / 100), none, none, none, none, none⟩).place_ask
      = false :=
  ⟨by norm_num [inventory_state_for],
   build_quote_no_ask_without_long _ _ _ (by norm_num [inventory_state_for])⟩

/-! ## `database.py` — the trade ledger

The SQLite `trades` table becomes a list of `TradeRow` (nullable columns are
`Option`-typed; `NOT NULL` columns are plain), the `portfolio` singleton row a
`Portfolio`, and the AUTOINCREMENT id counter an explicit `next_trade_id`. -/

/-- One row of the `trades` table (schema of `Database._init_db`). -/
structure TradeRow where
  id : ℕ
  timestamp : String
  market : String
  side : String
  size : ℚ
  price : ℚ
  target_wallet : String
  pnl : Option ℚ
  status : String
  sell_price : Option ℚ
  closed_at : Option String
  current_price : Option ℚ
  market_slug : Option String
  outcome : Option String
  shares : Option ℚ
  current_value : Option ℚ
  proceeds : Option ℚ
  realized_pnl : Option ℚ
  unrealized_pnl : Option ℚ
  entry_price_source : Option String
  current_price_source : Option String
  exit_price_source : Option String
  fill_price_source : Option String
  run_id : Option String
  run_tag : Option String
  deriving DecidableEq, Repr

/-- The `portfolio` singleton row. -/
structure Portfolio where
  total_value : ℚ
  cash : ℚ
  initial_budget : ℚ
  pnl_24h : ℚ
  pnl_total : ℚ
  updated_at : Option String
  session_started : Option String
  deriving DecidableEq, Repr

/-- The ledger database state. -/
structure DbState where
  trades : List TradeRow
  portfolio : Portfolio
  next_trade_id : ℕ
  deriving DecidableEq, Repr

/-- `float(row["shares"] or 0.0) or compute_shares(size, entry_price)`: the
stored share count, falling back to the derived one when missing or zero. -/
def shares_or_computed (stored : Option ℚ) (size entry_price : ℚ) : ℚ :=
  let s0 := pyOrQ stored 0
  if s0 = 0 then compute_shares size entry_price else s0

/-- `Database.close_trade`: close (part of) an open trade and realize P&L.
Returns the new state and the realized P&L of the closed slice; raising Python
code paths (`assert_price_probability`, `assert_shares_consistent`) become
`Except.error`. `now` stands for `datetime.now().isoformat()`. -/
def close_trade (st : DbState) (trade_id : ℕ) (exit_price : ℚ)
    (close_size? : Option ℚ) (exit_price_source fill_price_source now : String) :
    Except String (DbState × ℚ) :=
  match st.trades.find? (fun t => t.id == trade_id && t.status == "open") with
  | none => .ok (st, 0)
  | some row =>
    match assert_price_probability (some exit_price) "exit_price" with
    | .error e => .error e
    | .ok _ =>
      let entry_price := row.price
      let size := row.size
      let side := row.side
      let shares_total := shares_or_computed row.shares size entry_price
      match assert_shares_consistent shares_total entry_price size INTEGRITY_EPS with
      | .error e => .error e
      | .ok _ =>
        if entry_price ≤ 0 ∨ size ≤ 0 then .ok (st, 0)
        else
          let close_size :=
            match close_size? with
            | none => size
            | some c => min (max c 0) size
          if close_size ≤ 0 then .ok (st, 0)
          else
            let shares_to_close := compute_shares close_size entry_price
            let realized_pnl :=
              if pyUpper side = "BUY" then
                compute_realized_pnl shares_to_close entry_price (some exit_price)
              else shares_to_close * (entry_price - exit_price)
            let proceeds := compute_proceeds shares_to_close (some exit_price)
            let closed_at := now
            let is_full_close := |close_size - size| < PRICE_EPS
            let portfolio' := { st.portfolio with
              cash := st.portfolio.cash + proceeds,
              pnl_total := st.portfolio.pnl_total + realized_pnl }
            if is_full_close then
              let trades' := st.trades.map (fun t =>
                if t.id == trade_id then
                  { t with
                    status := "closed", sell_price := some exit_price,
                    closed_at := some closed_at, shares := some shares_total,
                    current_price := none, current_value := some proceeds,
                    proceeds := some proceeds, realized_pnl := some realized_pnl,
                    unrealized_pnl := some 0, pnl := some realized_pnl,
                    exit_price_source := some exit_price_source,
                    fill_price_source := some fill_price_source }
                else t)
              .ok ({ st with trades := trades', portfolio := portfolio' }, realized_pnl)
            else
              let new_row : TradeRow :=
                { id := st.next_trade_id, timestamp := closed_at,
                  market := row.market, side := side, size := close_size,
                  price := entry_price, target_wallet := row.target_wallet,
                  pnl := some realized_pnl, status := "closed",
                  sell_price := some exit_price, closed_at := some closed_at,
                  current_price := none, market_slug := row.market_slug,
                  outcome := row.outcome, shares := some shares_to_close,
                  current_value := some proceeds, proceeds := some proceeds,
                  realized_pnl := some realized_pnl, unrealized_pnl := some 0,
                  entry_price_source := some
                    (match row.entry_price_source with
                     | some s => if s = "" then "unknown" else s
                     | none => "unknown"),
                  current_price_source := none,
                  exit_price_source := some exit_price_source,
                  fill_price_source := some fill_price_source,
                  run_id := row.run_id, run_tag := row.run_tag }
              let remaining_size := size - close_size
              let remaining_shares := max (shares_total - shares_to_close) 0
              let remaining_unrealized :=
                compute_unrealized_pnl remaining_shares entry_price (some exit_price)
              let remaining_current_value := remaining_shares * exit_price
              let trades' := (st.trades ++ [new_row]).map (fun t =>
                if t.id == trade_id then
                  { t with
                    size := remaining_size, shares := some remaining_shares,
                    current_price := some exit_price,
                    current_value := some remaining_current_value,
                    unrealized_pnl := some remaining_unrealized,
                    pnl := some remaining_unrealized,
                    proceeds := some (coalesceQ t.proceeds),
                    realized_pnl := some (coalesceQ t.realized_pnl),
                    current_price_source := some exit_price_source }
                else t)
              .ok ({ trades := trades', portfolio := portfolio',
                     next_trade_id := st.next_trade_id + 1 }, realized_pnl)

/-- `database._validate_market_id`: non-empty, at most 256 characters, and only
characters from the class `[a-zA-Z0-9_\-x]` (the explicit `x` is already
alphanumeric). -/
def validate_market_id (market : String) : Except String String :=
  if market = "" ∨ market.length > 256 then
    .error "Invalid market identifier"
  else if ¬ (market.toList.all (fun c => c.isAlphanum || c = '_' || c = '-')) then
    .error "Market contains invalid characters"
  else .ok market

/-- `database._validate_side`: upper-cased side must be BUY or SELL. -/
def validate_side (side : String) : Except String String :=
  if pyUpper side = "BUY" ∨ pyUpper side = "SELL" then .ok (pyUpper side)
  else .error "Invalid trade side"

/-- `Database.add_trade`: insert an open trade and move cash (debit for BUY,
credit for SELL). Returns the new state and the new trade id. -/
def add_trade (st : DbState) (market side : String) (size price : ℚ)
    (target_wallet market_slug outcome entry_price_source current_price_source : String)
    (run_id run_tag : Option String) (now : String) : Except String (DbState × ℕ) :=
  match validate_market_id market with
  | .error e => .error e
  | .ok market =>
    match validate_side side with
    | .error e => .error e
    | .ok side =>
      if size ≤ 0 then .error "Trade size must be positive"
      else if price ≤ 0 then .error "Trade price must be positive"
      else
        match assert_price_probability (some price) "entry_price" with
        | .error e => .error e
        | .ok _ =>
          if target_wallet.length > 42 then .error "Invalid target wallet address"
          else
            let row : TradeRow :=
              { id := st.next_trade_id, timestamp := now, market := market,
                side := side, size := size, price := price,
                target_wallet := target_wallet, pnl := some 0, status := "open",
                sell_price := none, closed_at := none, current_price := some price,
                market_slug := some market_slug, outcome := some outcome,
                shares := some (compute_shares size price),
                current_value := some size, proceeds := some 0,
                realized_pnl := some 0, unrealized_pnl := some 0,
                entry_price_source := some entry_price_source,
                current_price_source := some current_price_source,
                exit_price_source := none, fill_price_source := none,
                run_id := run_id, run_tag := run_tag }
            let cash' :=
              if side = "BUY" then st.portfolio.cash - size
              else if side = "SELL" then st.portfolio.cash + size
              else st.portfolio.cash
            .ok ({ trades := st.trades ++ [row],
                   portfolio := { st.portfolio with cash := cash' },
                   next_trade_id := st.next_trade_id + 1 }, st.next_trade_id)

/-- `Database.update_trade_pnl`: mark an open trade to a current price,
refreshing its share count, current value and unrealized P&L. -/
def update_trade_pnl (st : DbState) (trade_id : ℕ) (current_price : ℚ)
    (current_price_source : String) : Except String (DbState × ℚ) :=
  match st.trades.find? (fun t => t.id == trade_id) with
  | none => .ok (st, 0)
  | some row =>
    if pyLower (pyOrStr row.status "open") ≠ "open" then .ok (st, pyOrQ row.pnl 0)
    else
      match assert_price_probability (some current_price) "current_price" with
      | .error e => .error e
      | .ok _ =>
        let entry_price := row.price
        let size := row.size
        let side := row.side
        if entry_price ≤ 0 then .ok (st, 0)
        else
          let shares := shares_or_computed row.shares size entry_price
          match assert_shares_consistent shares entry_price size INTEGRITY_EPS with
          | .error e => .error e
          | .ok _ =>
            let unrealized_pnl :=
              if pyUpper side = "BUY" then
                compute_unrealized_pnl shares entry_price (some current_price)
              else shares * (entry_price - current_price)
            let current_value := shares * current_price
            let trades' := st.trades.map (fun t =>
              if t.id == trade_id then
                { t with
                  shares := some shares, current_price := some current_price,
                  current_value := some current_value,
                  unrealized_pnl := some unrealized_pnl,
                  realized_pnl := some (coalesceQ t.realized_pnl),
                  pnl := some unrealized_pnl,
                  current_price_source := some current_price_source }
              else t)
            .ok ({ st with trades := trades' }, unrealized_pnl)

/-- `Database.update_portfolio`: overwrite total value, cash and 24h P&L (and
the updated-at stamp); `pnl_total` is not touched. -/
def update_portfolio (st : DbState) (total_value cash pnl_24h : ℚ) (now : String) :
    DbState :=
  { st with
    portfolio := { st.portfolio with
      total_value := total_value, cash := cash, pnl_24h := pnl_24h,
      updated_at := some now } }

/-- `Database.reset_pnl_total`: zero the cumulative realized P&L, returning its
previous value. -/
def reset_pnl_total (st : DbState) : DbState × ℚ :=
  ({ st with portfolio := { st.portfolio with pnl_total := 0 } },
   st.portfolio.pnl_total)

/-- `pnl.validate_trade_field_semantics`: strict accounting field semantics for
one ledger row. (The entry price is a `NOT NULL` column in the schema, so the
Python branch for a missing entry price is unreachable here.) Error messages are
abbreviated; only their presence matters to callers. -/
def validate_trade_field_semantics (t : TradeRow) (eps : ℚ) : List String :=
  let status := pyLower (pyOrStr t.status "open")
  let shares := pyOrQ t.shares 0
  let entry_price := t.price
  let size_usd := t.size
  let errs1 : List String :=
    if entry_price < 0 ∨ entry_price > 1 then ["entry_price must be in [0, 1]"] else []
  let errs2 : List String :=
    if status = "open" then
      (if t.current_price = none then ["open trade missing current_price"] else []) ++
      (if t.sell_price ≠ none then ["open trade must not have exit_price"] else [])
    else
      (if t.sell_price = none then ["closed trade missing exit_price"] else []) ++
      (if t.current_price ≠ none then ["closed trade must not have current_price"] else [])
  let errs3 : List String :=
    if size_usd ≤ 0 then ["invalid cost_basis_usd"] else []
  let derived_shares :=
    if shares ≤ 0 then
      (if entry_price > 0 ∧ size_usd > 0 then compute_shares size_usd entry_price
       else shares)
    else shares
  let errs4 : List String :=
    if derived_shares ≤ 0 then ["invalid shares"] else []
  let errs := errs1 ++ errs2 ++ errs3 ++ errs4
  if errs = [] then
    match assert_shares_consistent derived_shares entry_price size_usd eps with
    | .error e => [e]
    | .ok _ => []
  else errs

/-- The price-provenance whitelist of `Database.validate_trade_integrity`. -/
def allowed_price_sources : List String :=
  ["fill", "quote", "mark", "whale_ref", "placeholder", "unknown"]

/-- One provenance-column check of `Database.validate_trade_integrity`. -/
def check_price_source (v : Option String) (field : String) : List String :=
  match v with
  | none => []
  | some s => if s ∈ allowed_price_sources then [] else ["invalid " ++ field]

/-- The per-row body of the `Database.validate_trade_integrity` loop: the
collected issues together with the row's contribution to `open_value_total`. -/
def validate_trade_integrity_row (t : TradeRow) (eps : ℚ) : List String × ℚ :=
  let status := pyLower (pyOrStr t.status "open")
  let base := validate_trade_field_semantics t eps ++
    check_price_source t.entry_price_source "entry_price_source" ++
    check_price_source t.current_price_source "current_price_source" ++
    check_price_source t.exit_price_source "exit_price_source" ++
    check_price_source t.fill_price_source "fill_price_source"
  let size := t.size
  let entry_price := t.price
  let shares :=
    let s0 := pyOrQ t.shares 0
    if s0 ≤ 0 ∧ entry_price > 0 then compute_shares size entry_price else s0
  let expected_cost_basis := shares * entry_price
  let cost_err : List String :=
    if entry_price > 0 ∧ |size - expected_cost_basis| > eps then
      ["cost_basis mismatch"]
    else []
  if status = "open" then
    match t.current_price with
    | none => (base ++ cost_err, 0)
    | some current_price =>
      let expected_current := shares * current_price
      let stored_current := pyOrQ t.current_value 0
      let e1 : List String :=
        if |stored_current - expected_current| > eps then ["current_value mismatch"]
        else []
      let expected_unrealized :=
        compute_unrealized_pnl shares entry_price (some current_price)
      let stored_unrealized := pyOrQ t.unrealized_pnl (pyOrQ t.pnl 0)
      let e2 : List String :=
        if |stored_unrealized - expected_unrealized| > eps then ["unrealized mismatch"]
        else []
      (base ++ cost_err ++ e1 ++ e2, expected_current)
  else
    match t.sell_price with
    | none => (base ++ cost_err, 0)
    | some exit_price =>
      let expected_proceeds := shares * exit_price
      let stored_proceeds := pyOrQ t.proceeds 0
      let e1 : List String :=
        if |stored_proceeds - expected_proceeds| > eps then ["proceeds mismatch"]
        else []
      let expected_realized := compute_realized_pnl shares entry_price (some exit_price)
      let stored_realized := pyOrQ t.realized_pnl (pyOrQ t.pnl 0)
      let e2 : List String :=
        if |stored_realized - expected_realized| > eps then ["realized mismatch"]
        else []
      (base ++ cost_err ++ e1 ++ e2, 0)

/-- `Database.validate_trade_integrity`: scan every row, then check the cached
portfolio total against cash plus the recomputed open value. -/
def validate_trade_integrity (st : DbState) (eps : ℚ) : List String :=
  let folded := st.trades.foldl
    (fun (acc : List String × ℚ) t =>
      let r := validate_trade_integrity_row t eps
      (acc.1 ++ r.1, acc.2 + r.2))
    ([], 0)
  let portfolio_current_value := st.portfolio.total_value
  let cash := st.portfolio.cash
  let expected_total := cash + folded.2
  folded.1 ++
    (if |portfolio_current_value - expected_total| > eps then
      ["portfolio total mismatch"]
    else [])

/-- The extra live-mode provenance checks of `Database.run_reconciliation_gate`
for one (closed) trade row. -/
def live_trade_issues (t : TradeRow) : List String :=
  if pyLower (pyOrStr t.status "open") ≠ "closed" then []
  else
    (if t.sell_price = none then ["live invariant: closed trade missing exit_price"]
     else []) ++
    (if t.exit_price_source ≠ some "fill" then
      ["live invariant: exit_price_source must be fill"]
     else []) ++
    (if t.fill_price_source ≠ some "fill" then
      ["live invariant: fill_price_source must be fill"]
     else [])

/-- The error classes `Database.run_reconciliation_gate` can raise. -/
inductive GateError where
  /-- `RuntimeError("Live reconciliation gate failed; halting trading")`. -/
  | runtimeLive : GateError
  /-- `AssertionError("Backtest reconciliation gate failed")`. -/
  | assertionBacktest : GateError
  /-- `RuntimeError("Reconciliation gate failed")` for any other mode. -/
  | runtimeOther : GateError
  deriving DecidableEq, Repr

/-- `Database.run_reconciliation_gate`: collect integrity issues (plus, in live
mode, the fill-provenance invariants on closed trades) and raise per mode. -/
def run_reconciliation_gate (st : DbState) (mode : String) (eps : ℚ) :
    Except GateError Unit :=
  let issues := validate_trade_integrity st eps
  let mode_normalized := pyLower (pyOrStr mode "")
  let issues :=
    if mode_normalized = "live" then
      issues ++ st.trades.flatMap live_trade_issues
    else issues
  if issues = [] then .ok ()
  else if mode_normalized = "live" then .error .runtimeLive
  else if mode_normalized = "backtest" ∨ mode_normalized = "dry_run" then
    .error .assertionBacktest
  else .error .runtimeOther

/-- A concrete empty ledger used by witnesses. -/
def emptyLedger : DbState :=
  ⟨[], ⟨100, 100, 100, 0, 0, none, none⟩, 1⟩

/-- A concrete ledger whose portfolio carries a nonzero cumulative realized P&L. -/
def pnlLedger : DbState :=
  ⟨[], ⟨100, 100, 100, 0, 5, none, none⟩, 1⟩

/-- C5: closing a trade id that does not exist, or whose trade is not open,
is an idempotent no-op: `close_trade` returns 0.0 and the whole database state
(trades table and portfolio singleton included) is unchanged. -/
theorem close_trade_noop_on_missing_or_closed (st : DbState) (trade_id : ℕ)
    (exit_price : ℚ) (close_size? : Option ℚ) (exit_price_source fill_price_source now : String)
    (h : ∀ t ∈ st.trades, t.id = trade_id → t.status ≠ "open")
    (hp0 : 0 ≤ exit_price) (hp1 : exit_price ≤ 1) :
    close_trade st trade_id exit_price close_size? exit_price_source fill_price_source now
      = .ok (st, 0) := by
  have hfind : st.trades.find? (fun t => t.id == trade_id && t.status == "open") = none := by
    rw [List.find?_eq_none]
    intro t ht
    simp only [Bool.and_eq_true, beq_iff_eq, not_and]
    exact h t ht
  unfold close_trade
  rw [hfind]

/-- Witness for C5: closing the nonexistent trade 7 on an empty ledger. -/
theorem close_trade_noop_on_missing_or_closed_witness :
    ((∀ t ∈ emptyLedger.trades, t.id = 7 → t.status ≠ "open") ∧
      (0 : ℚ) ≤ 1 / 2 ∧ (1 / 2 : ℚ) ≤ 1) ∧
    close_trade emptyLedger 7 (1 / 2) none "fill" "fill" "t0" = .ok (emptyLedger, 0) :=
  ⟨⟨by simp [emptyLedger], by norm_num, by norm_num⟩,
   close_trade_noop_on_missing_or_closed emptyLedger 7 (1 / 2) none "fill" "fill" "t0"
     (by simp [emptyLedger]) (by norm_num) (by norm_num)⟩

/-- C7 counterexample: `reset_pnl_total` is a ledger operation other than
close-trade that mutates the portfolio's cumulative realized P&L (here from 5
to 0), so close-trade is not the only mutator. -/
theorem reset_pnl_total_mutates_pnl_total_counterexample :
    (reset_pnl_total pnlLedger).1.portfolio.pnl_total ≠ pnlLedger.portfolio.pnl_total := by
  norm_num [reset_pnl_total, pnlLedger]

/-- C7 (amended to the routine trading-path operations): `update_portfolio`,
`add_trade` and `update_trade_pnl` never change the portfolio's `pnl_total`;
among the ledger's trading-path operations only `close_trade` accumulates into
it, while the explicit administrative `reset_pnl_total` zeroes it. -/
theorem pnl_total_untouched_by_routine_updates (st : DbState)
    (total_value cash pnl_24h : ℚ) (now₁ : String)
    (market side : String) (size price : ℚ)
    (target_wallet market_slug outcome entry_price_source current_price_source : String)
    (run_id run_tag : Option String) (now₂ : String)
    (trade_id : ℕ) (current_price : ℚ) (current_price_source₂ : String) :
    (update_portfolio st total_value cash pnl_24h now₁).portfolio.pnl_total
        = st.portfolio.pnl_total ∧
    (add_trade st market side size price target_wallet market_slug outcome
        entry_price_source current_price_source run_id run_tag now₂).map
        (fun r => r.1.portfolio.pnl_total)
      = (add_trade st market side size price target_wallet market_slug outcome
        entry_price_source current_price_source run_id run_tag now₂).map
        (fun _ => st.portfolio.pnl_total) ∧
    (update_trade_pnl st trade_id current_price current_price_source₂).map
        (fun r => r.1.portfolio.pnl_total)
      = (update_trade_pnl st trade_id current_price current_price_source₂).map
        (fun _ => st.portfolio.pnl_total) := by
  refine ⟨rfl, ?_, ?_⟩
  · simp only [add_trade]
    repeat' split
    all_goals rfl
  · simp only [update_trade_pnl]
    repeat' split
    all_goals rfl

/-- C4: any ledger holding a closed trade whose exit-price provenance is not
`fill` makes the live-mode reconciliation gate raise the fatal
`RuntimeError` that halts trading, while the same ledger — if it carries no
other integrity violation — passes the backtest-mode gate without raising. -/
theorem run_reconciliation_gate_live_requires_fill (st : DbState) (eps : ℚ)
    (t : TradeRow) (ht : t ∈ st.trades)
    (hclosed : pyLower (pyOrStr t.status "open") = "closed")
    (hsrc : t.exit_price_source ≠ some "fill") :
    run_reconciliation_gate st "live" eps = .error .runtimeLive ∧
    (validate_trade_integrity st eps = [] →
      run_reconciliation_gate st "backtest" eps = .ok ()) := by
  have hmem : "live invariant: exit_price_source must be fill" ∈ live_trade_issues t := by
    simp [live_trade_issues, hclosed, hsrc]
  have hbind : "live invariant: exit_price_source must be fill"
      ∈ st.trades.flatMap live_trade_issues :=
    List.mem_flatMap.mpr ⟨t, ht, hmem⟩
  have hne : validate_trade_integrity st eps ++ st.trades.flatMap live_trade_issues ≠ [] := by
    intro hnil
    rw [(List.append_eq_nil.mp hnil).2] at hbind
    exact List.not_mem_nil _ hbind
  constructor
  · simp only [run_reconciliation_gate]
    have hmode : pyLower (pyOrStr "live" "") = "live" := by decide
    rw [hmode]
    simp only [eq_self_iff_true, if_true]
    rw [if_neg hne]
  · intro hempty
    simp only [run_reconciliation_gate]
    have hmode : pyLower (pyOrStr "backtest" "") = "backtest" := by decide
    rw [hmode]
    have h1 : ("backtest" = "live") = False := eq_false (by decide)
    simp only [h1, if_false]
    rw [hempty]
    simp

/-- A fully consistent closed BUY trade (cost 1 at entry 0.5, sold at 0.5) whose
exit-price provenance is `mark`, not `fill`. -/
def gateTrade : TradeRow :=
  ⟨1, "t0", "mkt", "BUY", 1, 1 / 2, "w", some 0, "closed", some (1 / 2), some "t1",
   none, none, none, some 2, some 1, some 1, some 0, some 0, some "fill", none,
   some "mark", some "fill", none, none⟩

/-- A ledger holding only `gateTrade`, with a portfolio cache that matches the
recomputed totals (no integrity violations). -/
def gateLedger : DbState :=
  ⟨[gateTrade], ⟨101, 101, 100, 0, 0, none, none⟩, 2⟩

/-- Witness for C4: on `gateLedger` the live gate raises and the backtest gate
passes. -/
theorem run_reconciliation_gate_live_requires_fill_witness :
    (gateTrade ∈ gateLedger.trades ∧
      pyLower (pyOrStr gateTrade.status "open") = "closed" ∧
      gateTrade.exit_price_source ≠ some "fill" ∧
      validate_trade_integrity gateLedger INTEGRITY_EPS = []) ∧
    (run_reconciliation_gate gateLedger "live" INTEGRITY_EPS = .error .runtimeLive ∧
      run_reconciliation_gate gateLedger "backtest" INTEGRITY_EPS = .ok ()) := by
  have hval : validate_trade_integrity gateLedger INTEGRITY_EPS = [] := by
    have h1 : pyLower (pyOrStr "closed" "open") = "closed" := by decide
    norm_num [validate_trade_integrity, validate_trade_integrity_row,
      validate_trade_field_semantics, check_price_source, allowed_price_sources,
      assert_shares_consistent, compute_unrealized_pnl, compute_realized_pnl,
      compute_shares, gateLedger, gateTrade, pyOrQ, INTEGRITY_EPS, h1]
    simp
  have hthm := run_reconciliation_gate_live_requires_fill gateLedger INTEGRITY_EPS gateTrade
    (by simp [gateLedger]) (by decide) (by decide)
  exact ⟨⟨by simp [gateLedger], by decide, by decide, hval⟩, hthm.1, hthm.2 hval⟩

/-- A consistent open BUY lot: cost basis 1 USD at entry price 0.5 (2 shares). -/
def partialTrade : TradeRow :=
  ⟨1, "t0", "mkt", "BUY", 1, 1 / 2, "w", some 0, "open", none, none, some (1 / 2),
   none, none, some 2, some 1, some 0, some 0, some 0, some "fill", some "fill",
   none, none, none, none⟩

/-- A ledger holding only the open lot `partialTrade`. -/
def partialLedger : DbState :=
  ⟨[partialTrade], ⟨101, 100, 100, 0, 0, none, none⟩, 2⟩

/-- C3 counterexample: a close size `c = 1 − 10⁻¹⁰` strictly between 0 and the
lot's cost basis 1 is treated as a FULL close (the code's
`abs(close_size - size) < 1e-9` tolerance), so the original row does not stay
open with cost basis `S − c` and no new closed row is inserted — after the call
the table still has exactly one row and it is closed. -/
theorem close_trade_near_full_counterexample :
    (0 < (9999999999 / 10000000000 : ℚ) ∧
      (9999999999 / 10000000000 : ℚ) < partialTrade.size) ∧
    (close_trade partialLedger 1 (1 / 2) (some (9999999999 / 10000000000))
        "fill" "fill" "t1").map
        (fun r => (r.1.trades.map (fun t => t.status), r.1.trades.length))
      = .ok (["closed"], 1) := by
  constructor
  · constructor
    · norm_num
    · norm_num [partialTrade]
  · have hbuy : pyUpper "BUY" = "BUY" := by decide
    have hfind : partialLedger.trades.find?
        (fun t => t.id == 1 && t.status == "open") = some partialTrade := rfl
    norm_num [close_trade, hfind, hbuy, partialLedger, partialTrade,
      shares_or_computed, pyOrQ, assert_price_probability, assert_shares_consistent,
      compute_shares, compute_realized_pnl, compute_proceeds, coalesceQ,
      INTEGRITY_EPS, PRICE_EPS]
    have habs : |(1 / 10000000000 : ℚ)| < 1 / 1000000000 := by
      rw [abs_of_pos (by norm_num : (0 : ℚ) < 1 / 10000000000)]
      norm_num
    rw [if_pos habs]
    rfl

set_option maxHeartbeats 1000000 in
/-- C3 (amended): for an open BUY lot with cost basis `S`, consistent stored
shares, and a close size `c` with `0 < c` and `c + 1e-9 ≤ S` (so that the
code's full-close tolerance `|c − S| < 1e-9` does not fire), `close_trade`
keeps the original row open with cost basis `S − c` and proportionally reduced
shares `(S − c)/entry`, inserts a new closed row with cost basis `c` carrying
the realized P&L of the slice, and the realized P&L of the slice plus the
unrealized P&L of the remaining row at the exit price equals the unrealized
P&L of the whole original lot at that price. -/
theorem close_trade_partial_close (st : DbState) (trade_id : ℕ) (r : TradeRow)
    (hfind : st.trades.find? (fun t => t.id == trade_id && t.status == "open") = some r)
    (hside : pyUpper r.side = "BUY")
    (hentry : 0 < r.price) (hsize : 0 < r.size)
    (hshares : r.shares = some (r.size / r.price))
    (hfresh : ∀ t ∈ st.trades, t.id < st.next_trade_id)
    (exit_price c : ℚ) (hex0 : 0 ≤ exit_price) (hex1 : exit_price ≤ 1)
    (hc : 0 < c) (hcS : c + PRICE_EPS ≤ r.size)
    (exit_price_source fill_price_source now : String) :
    ∃ st', close_trade st trade_id exit_price (some c)
        exit_price_source fill_price_source now
        = .ok (st', compute_realized_pnl (compute_shares c r.price) r.price (some exit_price)) ∧
      (∃ r' ∈ st'.trades, r'.id = trade_id ∧ r'.status = "open" ∧
        r'.size = r.size - c ∧ r'.shares = some ((r.size - c) / r.price)) ∧
      (∃ rc ∈ st'.trades, rc.id = st.next_trade_id ∧ rc.status = "closed" ∧
        rc.size = c ∧
        rc.realized_pnl
          = some (compute_realized_pnl (compute_shares c r.price) r.price (some exit_price))) ∧
      compute_realized_pnl (compute_shares c r.price) r.price (some exit_price)
          + compute_unrealized_pnl ((r.size - c) / r.price) r.price (some exit_price)
        = compute_unrealized_pnl (r.size / r.price) r.price (some exit_price) := by
  have hr_mem : r ∈ st.trades := List.mem_of_find?_eq_some hfind
  have hp := List.find?_some hfind
  have hid : r.id = trade_id := by
    simp only [Bool.and_eq_true, beq_iff_eq] at hp
    exact hp.1
  have hopen : r.status = "open" := by
    simp only [Bool.and_eq_true, beq_iff_eq] at hp
    exact hp.2
  have hPe : (0 : ℚ) < PRICE_EPS := by norm_num [PRICE_EPS]
  have hcr : c < r.size := by linarith
  have hpr_ne : ¬ (r.price ≤ 0) := not_le.mpr hentry
  have hprice_ne : r.price ≠ 0 := ne_of_gt hentry
  have hassert1 : assert_price_probability (some exit_price) "exit_price" = .ok () := by
    simp only [assert_price_probability]
    rw [if_neg (not_or.mpr ⟨not_lt.mpr hex0, not_lt.mpr hex1⟩)]
  have hshares_val : shares_or_computed r.shares r.size r.price = r.size / r.price := by
    unfold shares_or_computed pyOrQ
    rw [hshares]
    have hpos : 0 < r.size / r.price := div_pos hsize hentry
    simp [ne_of_gt hpos]
  have hassert2 : assert_shares_consistent (r.size / r.price) r.price r.size
      INTEGRITY_EPS = .ok () := by
    unfold assert_shares_consistent
    rw [if_neg (not_le.mpr (div_pos hsize hentry))]
    rw [div_mul_cancel₀ _ hprice_ne]
    rw [if_neg]
    simp only [sub_self, abs_zero]
    norm_num [INTEGRITY_EPS]
  have hcond : ¬ (r.price ≤ 0 ∨ r.size ≤ 0) :=
    not_or.mpr ⟨hpr_ne, not_le.mpr hsize⟩
  have hclamp : min (max c 0) r.size = c := by
    rw [max_eq_left hc.le, min_eq_left hcr.le]
  have hcle : ¬ (c ≤ 0) := not_le.mpr hc
  have hnotfull : ¬ (|c - r.size| < PRICE_EPS) := by
    rw [abs_of_nonpos (by linarith : c - r.size ≤ 0)]
    push_neg
    linarith
  have hsc : compute_shares c r.price = c / r.price := by
    unfold compute_shares
    rw [if_neg hpr_ne]
  have hrem : max (r.size / r.price - compute_shares c r.price) 0
      = (r.size - c) / r.price := by
    rw [hsc, div_sub_div_same]
    exact max_eq_left (div_nonneg (by linarith) hentry.le)
  have hne' : (st.next_trade_id == trade_id) = false := by
    have : trade_id < st.next_trade_id := hid ▸ hfresh r hr_mem
    simp only [beq_eq_false_iff_ne, ne_eq]
    omega
  simp only [close_trade, hfind, hassert1, hshares_val, hassert2]
  rw [if_neg hcond]
  rw [hclamp, if_neg hcle, hside, if_pos rfl, if_neg hnotfull]
  refine ⟨_, rfl, ?_, ?_, ?_⟩
  · refine ⟨_, List.mem_map_of_mem _ (List.mem_append_left _ hr_mem), ?_⟩
    simp only [hid, beq_self_eq_true, if_true]
    simp [hopen, hrem]
  · refine ⟨_, List.mem_map_of_mem _
      (List.mem_append_right _ (List.mem_singleton_self _)), ?_⟩
    simp only [hne', Bool.false_eq_true, if_false]
    simp
  · simp only [compute_realized_pnl, compute_unrealized_pnl, hsc]
    field_simp
    ring

/-- Witness for the amended C3: closing 0.4 USD of the 1-USD lot
`partialTrade` at exit price 0.6. -/
theorem close_trade_partial_close_witness :
    (0 < (2 / 5 : ℚ) ∧ (2 / 5 : ℚ) + PRICE_EPS ≤ partialTrade.size ∧
      partialTrade.shares = some (partialTrade.size / partialTrade.price)) ∧
    (∃ st', close_trade partialLedger 1 (3 / 5) (some (2 / 5)) "fill" "fill" "t1"
        = .ok (st', compute_realized_pnl (compute_shares (2 / 5) partialTrade.price)
            partialTrade.price (some (3 / 5))) ∧
      (∃ r' ∈ st'.trades, r'.id = 1 ∧ r'.status = "open" ∧
        r'.size = partialTrade.size - 2 / 5 ∧
        r'.shares = some ((partialTrade.size - 2 / 5) / partialTrade.price)) ∧
      (∃ rc ∈ st'.trades, rc.id = partialLedger.next_trade_id ∧ rc.status = "closed" ∧
        rc.size = 2 / 5 ∧
        rc.realized_pnl = some (compute_realized_pnl (compute_shares (2 / 5) partialTrade.price)
          partialTrade.price (some (3 / 5)))) ∧
      compute_realized_pnl (compute_shares (2 / 5) partialTrade.price) partialTrade.price
          (some (3 / 5))
          + compute_unrealized_pnl ((partialTrade.size - 2 / 5) / partialTrade.price)
            partialTrade.price (some (3 / 5))
        = compute_unrealized_pnl (partialTrade.size / partialTrade.price)
            partialTrade.price (some (3 / 5))) := by
  refine ⟨⟨by norm_num, by norm_num [PRICE_EPS, partialTrade], by norm_num [partialTrade]⟩, ?_⟩
  exact close_trade_partial_close partialLedger 1 partialTrade rfl (by decide)
    (by norm_num [partialTrade]) (by norm_num [partialTrade]) (by norm_num [partialTrade])
    (by simp [partialLedger, partialTrade]) (3 / 5) (2 / 5) (by norm_num) (by norm_num)
    (by norm_num) (by norm_num [PRICE_EPS, partialTrade]) "fill" "fill" "t1"

/-! ## `execution_diagnostics.py` — derived-metric validation

`OrderExecutionRecord` is modelled with the fields its `compute_derived_metrics`
validator reads or writes; the remaining columns (identifiers, quantities,
depth levels, tier) are opaque payload that the validator passes through
untouched and are represented by the `payload` tag so that distinct records stay
distinct. Timestamps are rationals in seconds. -/

/-- `execution_diagnostics.OrderExecutionRecord` (validator-relevant fields). -/
structure OrderExecutionRecord where
  payload : String
  side : String
  intended_limit_price : Option ℚ
  whale_signal_ts : Option ℚ
  whale_entry_ref_price : Option ℚ
  order_sent_ts : Option ℚ
  fill_ts : Option ℚ
  best_bid : Option ℚ
  best_ask : Option ℚ
  mid_price : Option ℚ
  spread_abs : Option ℚ
  spread_pct : Option ℚ
  last_trade_price : Option ℚ
  fill_price : Option ℚ
  fill_price_source : String
  latency_ms : Option ℚ
  quote_slippage_pct : Option ℚ
  half_spread_pct : Option ℚ
  baseline_slippage_pct : Option ℚ
  spread_crossed : Option Bool
  impact_proxy_pct : Option ℚ
  deriving DecidableEq, Repr

/-- The per-field range check of `compute_derived_metrics`'s opening loop. -/
def price_field_out_of_range (v : Option ℚ) : Bool :=
  match v with
  | none => false
  | some x => decide (x < 0) || decide (x > 1)

/-- The mid-price / spread block of `compute_derived_metrics` (lines 150–162):
derive `mid = (bid+ask)/2` when absent, reject a supplied mid that differs by
more than `PRICE_EPS`, and set `spread_abs`. -/
def mid_spread_step (r : OrderExecutionRecord) : Except String OrderExecutionRecord :=
  match r.best_bid, r.best_ask with
  | some b, some a =>
    let computed_mid := (b + a) / 2
    match r.mid_price with
    | none =>
      if a - b < -PRICE_EPS then .error "spread_abs must be >= 0"
      else .ok { r with mid_price := some computed_mid, spread_abs := some (a - b) }
    | some m =>
      if |m - computed_mid| > PRICE_EPS then .error "mid_price mismatch"
      else if a - b < -PRICE_EPS then .error "spread_abs must be >= 0"
      else .ok { r with spread_abs := some (a - b) }
  | _, _ => .ok r

/-- Lines 164–165: `spread_pct = spread_abs / mid` when mid is positive. -/
def spread_pct_step (r : OrderExecutionRecord) : OrderExecutionRecord :=
  match r.mid_price, r.spread_abs with
  | some m, some s => if m > 0 then { r with spread_pct := some (s / m) } else r
  | _, _ => r

/-- Lines 167–168: `half_spread_pct = (ask − mid)/mid` when mid is positive. -/
def half_spread_step (r : OrderExecutionRecord) : OrderExecutionRecord :=
  match r.best_ask, r.mid_price with
  | some a, some m => if m > 0 then { r with half_spread_pct := some ((a - m) / m) } else r
  | _, _ => r

/-- Lines 170–172: latency in ms from the whale signal to the fill (or send). -/
def latency_step (r : OrderExecutionRecord) : OrderExecutionRecord :=
  let latency_base :=
    match r.fill_ts with
    | some t => some t
    | none => r.order_sent_ts
  match latency_base, r.whale_signal_ts with
  | some lb, some ws => { r with latency_ms := some ((lb - ws) * 1000) }
  | _, _ => r

/-- Lines 174–176: quote slippage vs. mid, only for true fills with a book
snapshot (`mid not in (None, 0)` is Python membership, so a zero mid fails). -/
def quote_slippage_step (r : OrderExecutionRecord) : OrderExecutionRecord :=
  match r.fill_price, r.mid_price, r.best_bid, r.best_ask with
  | some fp, some m, some _, some _ =>
    if r.fill_price_source = "fill" ∧ m ≠ 0 then
      { r with quote_slippage_pct := some ((fp - m) / m) }
    else r
  | _, _, _, _ => r

/-- Lines 178–181: baseline slippage vs. the whale reference price. -/
def baseline_slippage_step (r : OrderExecutionRecord) : OrderExecutionRecord :=
  match r.fill_price, r.whale_entry_ref_price with
  | some fp, some w =>
    if r.fill_price_source = "fill" ∧ w ≠ 0 then
      { r with baseline_slippage_pct := some ((fp - w) / w) }
    else r
  | _, _ => r

/-- Lines 183–191: the side-dependent spread-crossed flag and impact proxy. -/
def crossed_step (r : OrderExecutionRecord) : OrderExecutionRecord :=
  match r.fill_price, r.best_bid, r.best_ask with
  | some fp, some b, some a =>
    if r.fill_price_source = "fill" then
      if r.side = "buy" then
        let r := { r with spread_crossed := some (decide (fp ≥ a - PRICE_EPS)) }
        if a > 0 then { r with impact_proxy_pct := some ((fp - a) / a) } else r
      else
        let r := { r with spread_crossed := some (decide (fp ≤ b + PRICE_EPS)) }
        if b > 0 then { r with impact_proxy_pct := some ((b - fp) / b) } else r
    else r
  | _, _, _ => r

/-- `OrderExecutionRecord.compute_derived_metrics`: the pydantic model
validator; a `ValueError` raised here becomes a `ValidationError`, so the
record is rejected (in live mode the error propagates; in simulation the record
is dropped) and never persisted. -/
def compute_derived_metrics (r : OrderExecutionRecord) : Except String OrderExecutionRecord :=
  if [r.intended_limit_price, r.whale_entry_ref_price, r.best_bid, r.best_ask,
      r.mid_price, r.last_trade_price, r.fill_price].any price_field_out_of_range then
    .error "price field must be in [0,1]"
  else if (match r.best_bid, r.best_ask with
           | some b, some a => decide (b > a + PRICE_EPS)
           | _, _ => false) then
    .error "Invalid snapshot: best_bid > best_ask"
  else
    match mid_spread_step r with
    | .error e => .error e
    | .ok r1 =>
      .ok (crossed_step (baseline_slippage_step (quote_slippage_step
        (latency_step (half_spread_step (spread_pct_step r1))))))

/-- `spread_pct_step` never touches `mid_price`. -/
theorem spread_pct_step_mid (r : OrderExecutionRecord) :
    (spread_pct_step r).mid_price = r.mid_price := by
  simp only [spread_pct_step]
  repeat' split
  all_goals rfl

/-- `half_spread_step` never touches `mid_price`. -/
theorem half_spread_step_mid (r : OrderExecutionRecord) :
    (half_spread_step r).mid_price = r.mid_price := by
  simp only [half_spread_step]
  repeat' split
  all_goals rfl

/-- `latency_step` never touches `mid_price`. -/
theorem latency_step_mid (r : OrderExecutionRecord) :
    (latency_step r).mid_price = r.mid_price := by
  simp only [latency_step]
  repeat' split
  all_goals rfl

/-- `quote_slippage_step` never touches `mid_price`. -/
theorem quote_slippage_step_mid (r : OrderExecutionRecord) :
    (quote_slippage_step r).mid_price = r.mid_price := by
  simp only [quote_slippage_step]
  repeat' split
  all_goals rfl

/-- `baseline_slippage_step` never touches `mid_price`. -/
theorem baseline_slippage_step_mid (r : OrderExecutionRecord) :
    (baseline_slippage_step r).mid_price = r.mid_price := by
  simp only [baseline_slippage_step]
  repeat' split
  all_goals rfl

/-- `crossed_step` never touches `mid_price`. -/
theorem crossed_step_mid (r : OrderExecutionRecord) :
    (crossed_step r).mid_price = r.mid_price := by
  simp only [crossed_step]
  repeat' split
  all_goals rfl

/-- C8: for a payload carrying both best_bid and best_ask, validation (a) sets
`mid_price` to `(bid+ask)/2` whenever it was not supplied and the record is
accepted, and (b) rejects the payload with a `ValidationError` whenever the
supplied `mid_price` differs from `(bid+ask)/2` by more than `PRICE_EPS`, so
the record is not persisted. -/
theorem compute_derived_metrics_mid_policy (r : OrderExecutionRecord) (b a : ℚ)
    (hb : r.best_bid = some b) (ha : r.best_ask = some a) :
    (r.mid_price = none → ∀ r', compute_derived_metrics r = .ok r' →
      r'.mid_price = some ((b + a) / 2)) ∧
    (∀ m, r.mid_price = some m → |m - (b + a) / 2| > PRICE_EPS →
      ∃ e, compute_derived_metrics r = .error e) := by
  constructor
  · intro hmid r' hok
    unfold compute_derived_metrics at hok
    split_ifs at hok
    rcases hms : mid_spread_step r with e | r1
    · rw [hms] at hok
      simp at hok
    · rw [hms] at hok
      simp only [Except.ok.injEq] at hok
      have h1 : r1.mid_price = some ((b + a) / 2) := by
        simp only [mid_spread_step, hb, ha, hmid] at hms
        split_ifs at hms
        simp only [Except.ok.injEq] at hms
        rw [← hms]
      rw [← hok, crossed_step_mid, baseline_slippage_step_mid, quote_slippage_step_mid,
        latency_step_mid, half_spread_step_mid, spread_pct_step_mid, h1]
  · intro m hmid hgt
    unfold compute_derived_metrics
    split_ifs with h1 h2
    · exact ⟨_, rfl⟩
    · exact ⟨_, rfl⟩
    · have hms : mid_spread_step r = .error "mid_price mismatch" := by
        simp only [mid_spread_step, hb, ha, hmid]
        rw [if_pos hgt]
      rw [hms]
      exact ⟨_, rfl⟩

/-- A record payload with a book snapshot (bid 0.4 / ask 0.6) and no supplied
mid price. -/
def recMidDerived : OrderExecutionRecord :=
  ⟨"sent", "buy", some (1 / 2), none, none, some 10, none, some (2 / 5), some (3 / 5),
   none, none, none, none, none, "unknown", none, none, none, none, none, none⟩

/-- The same payload but with a supplied mid price 0.9, far from (bid+ask)/2. -/
def recMidMismatch : OrderExecutionRecord :=
  ⟨"sent", "buy", some (1 / 2), none, none, some 10, none, some (2 / 5), some (3 / 5),
   some (9 / 10), none, none, none, none, "unknown", none, none, none, none, none, none⟩

/-- Witness for C8: the mid of `recMidDerived` is derived as 0.5, and
`recMidMismatch` is rejected. -/
theorem compute_derived_metrics_mid_policy_witness :
    (recMidDerived.best_bid = some (2 / 5) ∧ recMidDerived.best_ask = some (3 / 5) ∧
      recMidDerived.mid_price = none ∧
      recMidMismatch.mid_price = some (9 / 10) ∧
      |(9 / 10 : ℚ) - (2 / 5 + 3 / 5) / 2| > PRICE_EPS) ∧
    (∃ r', compute_derived_metrics recMidDerived = .ok r' ∧
      r'.mid_price = some ((2 / 5 + 3 / 5) / 2)) ∧
    (∃ e, compute_derived_metrics recMidMismatch = .error e) := by
  have habs25 : |(2 / 5 : ℚ)| = 2 / 5 := abs_of_pos (by norm_num)
  refine ⟨⟨rfl, rfl, rfl, rfl, by norm_num [PRICE_EPS, habs25]⟩, ?_, ?_⟩
  · have hisok : (compute_derived_metrics recMidDerived).toOption.isSome = true := by
      norm_num [compute_derived_metrics, price_field_out_of_range, mid_spread_step,
        recMidDerived, PRICE_EPS]
      rfl
    rcases hok : compute_derived_metrics recMidDerived with e | r'
    · rw [hok] at hisok
      simp [Except.toOption] at hisok
    · exact ⟨r', rfl,
        (compute_derived_metrics_mid_policy recMidDerived (2 / 5) (3 / 5) rfl rfl).1
          rfl r' hok⟩
  · exact (compute_derived_metrics_mid_policy recMidMismatch (2 / 5) (3 / 5) rfl rfl).2
      (9 / 10) rfl (by norm_num [PRICE_EPS, habs25])
